import Mathlib

/-!
Verification of the spin population-density models of `gwpopulation`
(`gwpopulation/models/spin.py`, checkpoint copy under
`models/.ipynb_checkpoints/spin-checkpoint.py`).

The module is embedded shallowly: arrays become `List ℚ`, a dataset is a
record of named arrays, scalar hyperparameters are `ℚ`, and the external
distribution primitives (`truncnorm`, `truncskewnorm`, `beta_dist`,
`unnormalized_2d_gaussian`, `unnormalized_2d_skew_gaussian`, imported in
the source from `gwpopulation.utils`, which the design document declares
out of scope and specifies only at its interface) are explicit function
parameters of the embedded models.  Numpy broadcasting of a scalar over
arrays becomes `List.map`; elementwise products of arrays become
`List.zipWith`; boolean masks become `if _ then 1 else 0` factors, and
`xp.trapz` becomes an explicit trapezoid sum.
-/

namespace GWPop

/-- Arrays of sample values: one rational per sample. -/
abbrev Arr := List ℚ

/-- A dataset: the named equal-length arrays the spin models read.
Mirrors the keys used in the source file. -/
structure Dataset where
  a_1 : Arr := []
  a_2 : Arr := []
  cos_tilt_1 : Arr := []
  cos_tilt_2 : Arr := []
  chi_eff : Arr := []
  chi_p : Arr := []

/-- Interface type of the external `truncnorm(x, mu, sigma, high, low)`
primitive (external collaborator, spec section 6). -/
abbrev TruncNorm := ℚ → ℚ → ℚ → ℚ → ℚ → ℚ

/-- Interface type of the external
`truncskewnorm(x, mu, sigma, alpha, high, low)` primitive. -/
abbrev TruncSkewNorm := ℚ → ℚ → ℚ → ℚ → ℚ → ℚ → ℚ

/-- Interface type of the external `beta_dist(x, alpha, beta, scale)`
primitive. -/
abbrev BetaDist := ℚ → ℚ → ℚ → ℚ → ℚ

/-- Interface type of the external
`unnormalized_2d_gaussian(x, y, mu_x, mu_y, sigma_x, sigma_y, rho)`
kernel. -/
abbrev Gauss2d := ℚ → ℚ → ℚ → ℚ → ℚ → ℚ → ℚ → ℚ

/-- Interface type of the external
`unnormalized_2d_skew_gaussian(x, y, mu_x, mu_y, sigma_x, sigma_y,
alpha_x, alpha_y, rho)` kernel. -/
abbrev SkewGauss2d := ℚ → ℚ → ℚ → ℚ → ℚ → ℚ → ℚ → ℚ → ℚ → ℚ

/-- `independent_spin_magnitude_beta` (source lines 56-78): elementwise
product of the rescaled beta density on `a_1` and on `a_2`. -/
def independent_spin_magnitude_beta (beta_dist : BetaDist) (dataset : Dataset)
    (alpha_chi_1 alpha_chi_2 beta_chi_1 beta_chi_2 amax_1 amax_2 : ℚ) : Arr :=
  List.zipWith (· * ·)
    (dataset.a_1.map (fun x => beta_dist x alpha_chi_1 beta_chi_1 amax_1))
    (dataset.a_2.map (fun x => beta_dist x alpha_chi_2 beta_chi_2 amax_2))

/-- `iid_spin_magnitude_beta` (source lines 36-53): the i.i.d.
specialization of `independent_spin_magnitude_beta`. -/
def iid_spin_magnitude_beta (beta_dist : BetaDist) (dataset : Dataset)
    (amax alpha_chi beta_chi : ℚ) : Arr :=
  independent_spin_magnitude_beta beta_dist dataset
    alpha_chi alpha_chi beta_chi beta_chi amax amax

/-- `independent_spin_orientation_gaussian_isotropic` (source lines
109-138).  The source computes
`(1 - xi_spin) / 4 + xi_spin * truncnorm(z1, 1, sigma_1, 1, -1) *
truncnorm(z2, 1, sigma_2, 1, -1)` with scalar-over-array broadcasting. -/
def independent_spin_orientation_gaussian_isotropic (truncnorm : TruncNorm)
    (dataset : Dataset) (xi_spin sigma_1 sigma_2 : ℚ) : Arr :=
  List.zipWith
    (fun z1 z2 =>
      (1 - xi_spin) / 4 +
        xi_spin * truncnorm z1 1 sigma_1 1 (-1) * truncnorm z2 1 sigma_2 1 (-1))
    dataset.cos_tilt_1 dataset.cos_tilt_2

/-- `iid_spin_orientation_gaussian_isotropic` (source lines 81-106):
specializes the independent model to a shared width. -/
def iid_spin_orientation_gaussian_isotropic (truncnorm : TruncNorm)
    (dataset : Dataset) (xi_spin sigma_spin : ℚ) : Arr :=
  independent_spin_orientation_gaussian_isotropic truncnorm dataset
    xi_spin sigma_spin sigma_spin

/-- `iid_spin` (source lines 10-33): product of the tilt mixture and the
i.i.d. magnitude density. -/
def iid_spin (truncnorm : TruncNorm) (beta_dist : BetaDist) (dataset : Dataset)
    (xi_spin sigma_spin amax alpha_chi beta_chi : ℚ) : Arr :=
  List.zipWith (· * ·)
    (iid_spin_orientation_gaussian_isotropic truncnorm dataset xi_spin sigma_spin)
    (iid_spin_magnitude_beta beta_dist dataset amax alpha_chi beta_chi)

/-- `gaussian_chi_eff` (source lines 141-167): truncated normal on
`chi_eff` over `[-1, 1]`. -/
def gaussian_chi_eff (truncnorm : TruncNorm) (dataset : Dataset)
    (mu_chi_eff sigma_chi_eff : ℚ) : Arr :=
  dataset.chi_eff.map (fun x => truncnorm x mu_chi_eff sigma_chi_eff 1 (-1))

/-- `gaussian_chi_p` (source lines 170-194): truncated normal on `chi_p`
over `[0, 1]`. -/
def gaussian_chi_p (truncnorm : TruncNorm) (dataset : Dataset)
    (mu_chi_p sigma_chi_p : ℚ) : Arr :=
  dataset.chi_p.map (fun x => truncnorm x mu_chi_p sigma_chi_p 1 0)

/-- `skew_gaussian_chi_eff` (source lines 280-306). -/
def skew_gaussian_chi_eff (truncskewnorm : TruncSkewNorm) (dataset : Dataset)
    (mu_chi_eff sigma_chi_eff skew_chi_eff : ℚ) : Arr :=
  dataset.chi_eff.map
    (fun x => truncskewnorm x mu_chi_eff sigma_chi_eff skew_chi_eff 1 (-1))

/-- `skew_gaussian_chi_p` (source lines 309-333). -/
def skew_gaussian_chi_p (truncskewnorm : TruncSkewNorm) (dataset : Dataset)
    (mu_chi_p sigma_chi_p skew_chi_p : ℚ) : Arr :=
  dataset.chi_p.map
    (fun x => truncskewnorm x mu_chi_p sigma_chi_p skew_chi_p 1 0)

/-- `xp.linspace(a, b, n)`: `n` evenly spaced points from `a` to `b`
inclusive. -/
def linspace (a b : ℚ) (n : ℕ) : Arr :=
  (List.range n).map (fun i => a + (b - a) * i / ((n : ℚ) - 1))

/-- `xp.trapz(y, x=x)`: 1-D trapezoidal quadrature of samples `y` at
coordinates `x`. -/
def trapz : Arr → Arr → ℚ
  | y0 :: y1 :: ys, x0 :: x1 :: xs =>
      (x1 - x0) * (y0 + y1) / 2 + trapz (y1 :: ys) (x1 :: xs)
  | _, _ => 0

/-- The inner `_normalization` helper of `gaussian_chi_p_chi_eff` (source
lines 230-245): evaluate the unnormalized kernel on the
`meshgrid(linspace(-1,1,500), linspace(0,1,250))` mesh (row `i`, column
`j` of the mesh holds `(chi_eff_j, chi_p_i)`), integrate each row over
`chi_eff` by `trapz`, then integrate the row results over `chi_p`. -/
def normalization_chi_p_chi_eff (g2 : Gauss2d)
    (mu_chi_eff sigma_chi_eff mu_chi_p sigma_chi_p rho : ℚ) : ℚ :=
  let chi_eff_linspace := linspace (-1) 1 500
  let chi_p_linspace := linspace 0 1 250
  let prob_grid := chi_p_linspace.map (fun cp =>
    chi_eff_linspace.map (fun ce =>
      g2 ce cp mu_chi_eff mu_chi_p sigma_chi_eff sigma_chi_p rho))
  trapz (prob_grid.map (fun row => trapz row chi_eff_linspace)) chi_p_linspace

/-- The inner `_normalization` helper of `gaussian_chi_p_chi_eff_skew`
(source lines 372-389). -/
def normalization_chi_p_chi_eff_skew (g2s : SkewGauss2d)
    (mu_chi_eff sigma_chi_eff mu_chi_p sigma_chi_p skew_chi_eff skew_chi_p rho : ℚ) : ℚ :=
  let chi_eff_linspace := linspace (-1) 1 500
  let chi_p_linspace := linspace 0 1 250
  let prob_grid := chi_p_linspace.map (fun cp =>
    chi_eff_linspace.map (fun ce =>
      g2s ce cp mu_chi_eff mu_chi_p sigma_chi_eff sigma_chi_p
        skew_chi_eff skew_chi_p rho))
  trapz (prob_grid.map (fun row => trapz row chi_eff_linspace)) chi_p_linspace

/-- `gaussian_chi_p_chi_eff` (source lines 197-277).  For `rho = 0` the
product of the two truncated-normal marginals; otherwise the unnormalized
kernel at the samples, divided by the quadrature normalization, then
multiplied by the boolean support masks `abs(chi_eff) <= 1` and
`(chi_p <= 1) * (chi_p >= 0)`. -/
def gaussian_chi_p_chi_eff (truncnorm : TruncNorm) (g2 : Gauss2d)
    (dataset : Dataset)
    (mu_chi_eff sigma_chi_eff mu_chi_p sigma_chi_p rho : ℚ) : Arr :=
  if rho = 0 then
    List.zipWith (· * ·)
      (gaussian_chi_eff truncnorm dataset mu_chi_eff sigma_chi_eff)
      (gaussian_chi_p truncnorm dataset mu_chi_p sigma_chi_p)
  else
    let prob0 := List.zipWith
      (fun ce cp => g2 ce cp mu_chi_eff mu_chi_p sigma_chi_eff sigma_chi_p rho)
      dataset.chi_eff dataset.chi_p
    let nc := normalization_chi_p_chi_eff g2
      mu_chi_eff sigma_chi_eff mu_chi_p sigma_chi_p rho
    let prob1 := prob0.map (fun v => v / nc)
    let prob2 := List.zipWith (· * ·) prob1
      (dataset.chi_eff.map (fun ce => if |ce| ≤ 1 then (1 : ℚ) else 0))
    let prob3 := List.zipWith (· * ·) prob2
      (List.zipWith (· * ·)
        (dataset.chi_p.map (fun cp => if cp ≤ 1 then (1 : ℚ) else 0))
        (dataset.chi_p.map (fun cp => if 0 ≤ cp then (1 : ℚ) else 0)))
    prob3

/-- `gaussian_chi_p_chi_eff_skew` (source lines 335-427): identical
structure with the skew kernel and skew-normal marginals. -/
def gaussian_chi_p_chi_eff_skew (truncskewnorm : TruncSkewNorm)
    (g2s : SkewGauss2d) (dataset : Dataset)
    (mu_chi_eff sigma_chi_eff mu_chi_p sigma_chi_p skew_chi_eff skew_chi_p rho : ℚ) :
    Arr :=
  if rho = 0 then
    List.zipWith (· * ·)
      (skew_gaussian_chi_eff truncskewnorm dataset mu_chi_eff sigma_chi_eff skew_chi_eff)
      (skew_gaussian_chi_p truncskewnorm dataset mu_chi_p sigma_chi_p skew_chi_p)
  else
    let prob0 := List.zipWith
      (fun ce cp => g2s ce cp mu_chi_eff mu_chi_p sigma_chi_eff sigma_chi_p
        skew_chi_eff skew_chi_p rho)
      dataset.chi_eff dataset.chi_p
    let nc := normalization_chi_p_chi_eff_skew g2s
      mu_chi_eff sigma_chi_eff mu_chi_p sigma_chi_p skew_chi_eff skew_chi_p rho
    let prob1 := prob0.map (fun v => v / nc)
    let prob2 := List.zipWith (· * ·) prob1
      (dataset.chi_eff.map (fun ce => if |ce| ≤ 1 then (1 : ℚ) else 0))
    let prob3 := List.zipWith (· * ·) prob2
      (List.zipWith (· * ·)
        (dataset.chi_p.map (fun cp => if cp ≤ 1 then (1 : ℚ) else 0))
        (dataset.chi_p.map (fun cp => if 0 ≤ cp then (1 : ℚ) else 0)))
    prob3

/-- Modelled from the spec: the claimed tilt-mixture formula of spec
section 4.2 and claim C1, with the isotropic term weighted by
`(1 - xi_spin)^2 / 4`. -/
def spec_tilt_mixture_claimed (truncnorm : TruncNorm)
    (xi_spin sigma_1 sigma_2 z1 z2 : ℚ) : ℚ :=
  (1 - xi_spin) ^ 2 / 4 +
    xi_spin * truncnorm z1 1 sigma_1 1 (-1) * truncnorm z2 1 sigma_2 1 (-1)

/-- The amended pointwise tilt-mixture formula: isotropic weight
`(1 - xi_spin) / 4` (first power), as the source computes. -/
def tilt_mixture_amended (truncnorm : TruncNorm)
    (xi_spin sigma_1 sigma_2 z1 z2 : ℚ) : ℚ :=
  (1 - xi_spin) / 4 +
    xi_spin * truncnorm z1 1 sigma_1 1 (-1) * truncnorm z2 1 sigma_2 1 (-1)

/-- Modelled from the spec (section 4.3, step 2b and claim C4): form the
outer-product mesh of the 500-point `chi_eff` grid and the 250-point
`chi_p` grid, evaluate the kernel on every mesh point, and integrate by
nested 1-D trapezoidal quadrature over `chi_eff` first and then over
`chi_p`. -/
def spec_norm_constant (kern : ℚ → ℚ → ℚ) : ℚ :=
  let chi_eff_grid := linspace (-1) 1 500
  let chi_p_grid := linspace 0 1 250
  let mesh := chi_p_grid.map (fun cp => chi_eff_grid.map (fun ce => (ce, cp)))
  let vals := mesh.map (fun row => row.map (fun q => kern q.1 q.2))
  trapz (vals.map (fun row => trapz row chi_eff_grid)) chi_p_grid

/-- A concrete instantiation of the truncated-normal interface used in
witnesses and counterexamples: the indicator of the truncation window.
It satisfies the interface property of the spec glossary that a
truncated density vanishes outside its interval; the claims settled with
it do not depend on the values the primitive takes inside the window. -/
def tnStub : TruncNorm :=
  fun x _ _ high low => if low ≤ x ∧ x ≤ high then 1 else 0

/-- Concrete truncated-skew-normal stand-in, as `tnStub`. -/
def tsnStub : TruncSkewNorm :=
  fun x _ _ _ high low => if low ≤ x ∧ x ≤ high then 1 else 0

/-- Concrete beta-density stand-in for witnesses (constant 1). -/
def bdStub : BetaDist := fun _ _ _ _ => 1

/-- Concrete bivariate-kernel stand-in for witnesses (constant 1). -/
def g2Stub : Gauss2d := fun _ _ _ _ _ _ _ => 1

/-- Concrete skew bivariate-kernel stand-in for witnesses. -/
def g2sStub : SkewGauss2d := fun _ _ _ _ _ _ _ _ _ => 1

/-- Concrete dataset with both tilts at perfect alignment. -/
def dsTilt : Dataset := { cos_tilt_1 := [1], cos_tilt_2 := [1] }

/-- Concrete dataset with generic tilt values. -/
def dsTilt2 : Dataset := { cos_tilt_1 := [1/2], cos_tilt_2 := [-1/2] }

/-- Concrete dataset with spin magnitudes, from the spec scenario. -/
def dsMag : Dataset := { a_1 := [1/2], a_2 := [3/10] }

/-- Concrete dataset with in-support effective spins. -/
def dsChi : Dataset := { chi_eff := [1/2], chi_p := [1/2] }

/-- Concrete dataset with out-of-support effective spins. -/
def dsChiOut : Dataset := { chi_eff := [2], chi_p := [1/2] }

/-- Concrete dataset with boundary effective spins. -/
def dsChiBoundary : Dataset := { chi_eff := [1], chi_p := [0] }

/-- Elementwise value of the masked, normalized kernel chain shared by the
`rho ≠ 0` branch of both bivariate models. -/
theorem masked_value_getElem (kern : ℚ → ℚ → ℚ) (nc : ℚ) (xs ys : Arr) (i : ℕ)
    (h1 : i < xs.length) (h2 : i < ys.length) :
    (List.zipWith (· * ·)
      (List.zipWith (· * ·) ((List.zipWith kern xs ys).map (fun v => v / nc))
        (xs.map (fun ce => if |ce| ≤ 1 then (1 : ℚ) else 0)))
      (List.zipWith (· * ·)
        (ys.map (fun cp => if cp ≤ 1 then (1 : ℚ) else 0))
        (ys.map (fun cp => if 0 ≤ cp then (1 : ℚ) else 0))))[i]? =
    some (kern xs[i] ys[i] / nc * (if |xs[i]| ≤ 1 then (1 : ℚ) else 0) *
      ((if ys[i] ≤ 1 then (1 : ℚ) else 0) * (if 0 ≤ ys[i] then (1 : ℚ) else 0))) := by
  simp [List.getElem?_zipWith', List.getElem?_eq_getElem h1,
    List.getElem?_eq_getElem h2]
  split_ifs <;> rfl

/-- Elementwise value of `gaussian_chi_p_chi_eff` on the `rho ≠ 0` branch. -/
theorem gaussian_chi_p_chi_eff_getElem_of_rho_ne (truncnorm : TruncNorm)
    (g2 : Gauss2d) (dataset : Dataset)
    (mu_chi_eff sigma_chi_eff mu_chi_p sigma_chi_p rho : ℚ) (hrho : rho ≠ 0)
    (i : ℕ) (h1 : i < dataset.chi_eff.length) (h2 : i < dataset.chi_p.length) :
    (gaussian_chi_p_chi_eff truncnorm g2 dataset
        mu_chi_eff sigma_chi_eff mu_chi_p sigma_chi_p rho)[i]? =
    some (g2 dataset.chi_eff[i] dataset.chi_p[i]
        mu_chi_eff mu_chi_p sigma_chi_eff sigma_chi_p rho /
      normalization_chi_p_chi_eff g2 mu_chi_eff sigma_chi_eff mu_chi_p sigma_chi_p rho *
      (if |dataset.chi_eff[i]| ≤ 1 then (1 : ℚ) else 0) *
      ((if dataset.chi_p[i] ≤ 1 then (1 : ℚ) else 0) *
        (if 0 ≤ dataset.chi_p[i] then (1 : ℚ) else 0))) := by
  rw [show gaussian_chi_p_chi_eff truncnorm g2 dataset
      mu_chi_eff sigma_chi_eff mu_chi_p sigma_chi_p rho =
    List.zipWith (· * ·)
      (List.zipWith (· * ·)
        ((List.zipWith
          (fun ce cp => g2 ce cp mu_chi_eff mu_chi_p sigma_chi_eff sigma_chi_p rho)
          dataset.chi_eff dataset.chi_p).map
          (fun v => v / normalization_chi_p_chi_eff g2
            mu_chi_eff sigma_chi_eff mu_chi_p sigma_chi_p rho))
        (dataset.chi_eff.map (fun ce => if |ce| ≤ 1 then (1 : ℚ) else 0)))
      (List.zipWith (· * ·)
        (dataset.chi_p.map (fun cp => if cp ≤ 1 then (1 : ℚ) else 0))
        (dataset.chi_p.map (fun cp => if 0 ≤ cp then (1 : ℚ) else 0)))
    from by rw [gaussian_chi_p_chi_eff, if_neg hrho]]
  exact masked_value_getElem _ _ _ _ i h1 h2

/-- Elementwise value of `gaussian_chi_p_chi_eff` on the `rho = 0` fast
path: product of the two truncated-normal marginals. -/
theorem gaussian_chi_p_chi_eff_getElem_of_rho_zero (truncnorm : TruncNorm)
    (g2 : Gauss2d) (dataset : Dataset)
    (mu_chi_eff sigma_chi_eff mu_chi_p sigma_chi_p : ℚ)
    (i : ℕ) (h1 : i < dataset.chi_eff.length) (h2 : i < dataset.chi_p.length) :
    (gaussian_chi_p_chi_eff truncnorm g2 dataset
        mu_chi_eff sigma_chi_eff mu_chi_p sigma_chi_p 0)[i]? =
    some (truncnorm dataset.chi_eff[i] mu_chi_eff sigma_chi_eff 1 (-1) *
      truncnorm dataset.chi_p[i] mu_chi_p sigma_chi_p 1 0) := by
  simp [gaussian_chi_p_chi_eff, gaussian_chi_eff, gaussian_chi_p,
    List.getElem?_zipWith', List.getElem?_eq_getElem h1,
    List.getElem?_eq_getElem h2]

/-- Elementwise value of `gaussian_chi_p_chi_eff_skew` on the `rho ≠ 0`
branch. -/
theorem gaussian_chi_p_chi_eff_skew_getElem_of_rho_ne (truncskewnorm : TruncSkewNorm)
    (g2s : SkewGauss2d) (dataset : Dataset)
    (mu_chi_eff sigma_chi_eff mu_chi_p sigma_chi_p skew_chi_eff skew_chi_p rho : ℚ)
    (hrho : rho ≠ 0)
    (i : ℕ) (h1 : i < dataset.chi_eff.length) (h2 : i < dataset.chi_p.length) :
    (gaussian_chi_p_chi_eff_skew truncskewnorm g2s dataset
        mu_chi_eff sigma_chi_eff mu_chi_p sigma_chi_p skew_chi_eff skew_chi_p rho)[i]? =
    some (g2s dataset.chi_eff[i] dataset.chi_p[i]
        mu_chi_eff mu_chi_p sigma_chi_eff sigma_chi_p skew_chi_eff skew_chi_p rho /
      normalization_chi_p_chi_eff_skew g2s
        mu_chi_eff sigma_chi_eff mu_chi_p sigma_chi_p skew_chi_eff skew_chi_p rho *
      (if |dataset.chi_eff[i]| ≤ 1 then (1 : ℚ) else 0) *
      ((if dataset.chi_p[i] ≤ 1 then (1 : ℚ) else 0) *
        (if 0 ≤ dataset.chi_p[i] then (1 : ℚ) else 0))) := by
  rw [show gaussian_chi_p_chi_eff_skew truncskewnorm g2s dataset
      mu_chi_eff sigma_chi_eff mu_chi_p sigma_chi_p skew_chi_eff skew_chi_p rho =
    List.zipWith (· * ·)
      (List.zipWith (· * ·)
        ((List.zipWith
          (fun ce cp => g2s ce cp mu_chi_eff mu_chi_p sigma_chi_eff sigma_chi_p
            skew_chi_eff skew_chi_p rho)
          dataset.chi_eff dataset.chi_p).map
          (fun v => v / normalization_chi_p_chi_eff_skew g2s
            mu_chi_eff sigma_chi_eff mu_chi_p sigma_chi_p skew_chi_eff skew_chi_p rho))
        (dataset.chi_eff.map (fun ce => if |ce| ≤ 1 then (1 : ℚ) else 0)))
      (List.zipWith (· * ·)
        (dataset.chi_p.map (fun cp => if cp ≤ 1 then (1 : ℚ) else 0))
        (dataset.chi_p.map (fun cp => if 0 ≤ cp then (1 : ℚ) else 0)))
    from by rw [gaussian_chi_p_chi_eff_skew, if_neg hrho]]
  exact masked_value_getElem _ _ _ _ i h1 h2

/-- Elementwise value of `gaussian_chi_p_chi_eff_skew` on the `rho = 0`
fast path. -/
theorem gaussian_chi_p_chi_eff_skew_getElem_of_rho_zero (truncskewnorm : TruncSkewNorm)
    (g2s : SkewGauss2d) (dataset : Dataset)
    (mu_chi_eff sigma_chi_eff mu_chi_p sigma_chi_p skew_chi_eff skew_chi_p : ℚ)
    (i : ℕ) (h1 : i < dataset.chi_eff.length) (h2 : i < dataset.chi_p.length) :
    (gaussian_chi_p_chi_eff_skew truncskewnorm g2s dataset
        mu_chi_eff sigma_chi_eff mu_chi_p sigma_chi_p skew_chi_eff skew_chi_p 0)[i]? =
    some (truncskewnorm dataset.chi_eff[i] mu_chi_eff sigma_chi_eff skew_chi_eff 1 (-1) *
      truncskewnorm dataset.chi_p[i] mu_chi_p sigma_chi_p skew_chi_p 1 0) := by
  simp [gaussian_chi_p_chi_eff_skew, skew_gaussian_chi_eff, skew_gaussian_chi_p,
    List.getElem?_zipWith', List.getElem?_eq_getElem h1,
    List.getElem?_eq_getElem h2]

/-- C1, counterexample: the claim weights the isotropic tilt term by
`(1 - xi_spin)^2 / 4`, but the code computes `(1 - xi_spin) / 4`.  At
`xi_spin = 1/4` the two formulas differ by `3/64` independently of the
value the truncated-normal primitive takes, so the claimed identity
fails at a concrete input. -/
theorem C1_counterexample :
    (independent_spin_orientation_gaussian_isotropic tnStub dsTilt (1/4) 1 1)[0]? ≠
      some (spec_tilt_mixture_claimed tnStub (1/4) 1 1 1 1) := by
  norm_num [independent_spin_orientation_gaussian_isotropic, dsTilt, tnStub,
    spec_tilt_mixture_claimed]

/-- C1 (amended): for every truncated-normal primitive, dataset, mixing
fraction and widths, the spin-orientation mixture density equals,
pointwise, `(1 - xi_spin)/4 + xi_spin * N(z1; 1, sigma_1, [-1,1]) *
N(z2; 1, sigma_2, [-1,1])` — the isotropic term carries weight
`(1 - xi_spin)/4`, first power, not squared — and the iid entry point is
the `sigma_1 = sigma_2` specialization of the independent model. -/
theorem C1_tilt_mixture_weight (truncnorm : TruncNorm) (dataset : Dataset)
    (xi_spin sigma_1 sigma_2 : ℚ) (i : ℕ)
    (h1 : i < dataset.cos_tilt_1.length) (h2 : i < dataset.cos_tilt_2.length) :
    (independent_spin_orientation_gaussian_isotropic truncnorm dataset
        xi_spin sigma_1 sigma_2)[i]? =
      some (tilt_mixture_amended truncnorm xi_spin sigma_1 sigma_2
        dataset.cos_tilt_1[i] dataset.cos_tilt_2[i]) ∧
    iid_spin_orientation_gaussian_isotropic truncnorm dataset xi_spin sigma_1 =
      independent_spin_orientation_gaussian_isotropic truncnorm dataset
        xi_spin sigma_1 sigma_1 := by
  refine ⟨?_, rfl⟩
  simp [independent_spin_orientation_gaussian_isotropic, tilt_mixture_amended,
    List.getElem?_zipWith', List.getElem?_eq_getElem h1,
    List.getElem?_eq_getElem h2]

/-- Witness for `C1_tilt_mixture_weight` at a concrete input. -/
theorem C1_tilt_mixture_weight_witness :
    (independent_spin_orientation_gaussian_isotropic tnStub dsTilt2 (1/3) 1 2)[0]? =
      some (tilt_mixture_amended tnStub (1/3) 1 2 (1/2) (-1/2)) ∧
    iid_spin_orientation_gaussian_isotropic tnStub dsTilt2 (1/3) 1 =
      independent_spin_orientation_gaussian_isotropic tnStub dsTilt2 (1/3) 1 1 :=
  C1_tilt_mixture_weight tnStub dsTilt2 (1/3) 1 2 0 (by decide) (by decide)

/-- C5, counterexample: at `xi_spin = 0` the code returns the joint
isotropic density `1/4` (per-axis density `1/2` on `[-1,1]`, squared),
not the claimed `1/16`. -/
theorem C5_counterexample :
    (iid_spin_orientation_gaussian_isotropic tnStub dsTilt2 0 (1/2))[0]? ≠
      some (1/16) := by
  norm_num [iid_spin_orientation_gaussian_isotropic,
    independent_spin_orientation_gaussian_isotropic, dsTilt2, tnStub]

/-- C5 (amended): at `xi_spin = 0` the tilt-mixture density equals `1/4`
at every sample regardless of the width parameters, and at `xi_spin = 1`
it equals the product of the two truncated normals centered at 1, for
both the independent and the iid entry points. -/
theorem C5_mixture_limits (truncnorm : TruncNorm) (dataset : Dataset)
    (sigma_1 sigma_2 : ℚ) (i : ℕ)
    (h1 : i < dataset.cos_tilt_1.length) (h2 : i < dataset.cos_tilt_2.length) :
    (independent_spin_orientation_gaussian_isotropic truncnorm dataset
        0 sigma_1 sigma_2)[i]? = some (1/4) ∧
    (iid_spin_orientation_gaussian_isotropic truncnorm dataset 0 sigma_1)[i]? =
      some (1/4) ∧
    (independent_spin_orientation_gaussian_isotropic truncnorm dataset
        1 sigma_1 sigma_2)[i]? =
      some (truncnorm dataset.cos_tilt_1[i] 1 sigma_1 1 (-1) *
        truncnorm dataset.cos_tilt_2[i] 1 sigma_2 1 (-1)) ∧
    (iid_spin_orientation_gaussian_isotropic truncnorm dataset 1 sigma_1)[i]? =
      some (truncnorm dataset.cos_tilt_1[i] 1 sigma_1 1 (-1) *
        truncnorm dataset.cos_tilt_2[i] 1 sigma_1 1 (-1)) := by
  refine ⟨?_, ?_, ?_, ?_⟩ <;>
    simp [independent_spin_orientation_gaussian_isotropic,
      iid_spin_orientation_gaussian_isotropic,
      List.getElem?_zipWith', List.getElem?_eq_getElem h1,
      List.getElem?_eq_getElem h2]

/-- Witness for `C5_mixture_limits` at a concrete input. -/
theorem C5_mixture_limits_witness :
    (independent_spin_orientation_gaussian_isotropic tnStub dsTilt 0 1 2)[0]? =
      some (1/4) ∧
    (iid_spin_orientation_gaussian_isotropic tnStub dsTilt 0 1)[0]? = some (1/4) ∧
    (independent_spin_orientation_gaussian_isotropic tnStub dsTilt 1 1 2)[0]? =
      some (tnStub 1 1 1 1 (-1) * tnStub 1 1 2 1 (-1)) ∧
    (iid_spin_orientation_gaussian_isotropic tnStub dsTilt 1 1)[0]? =
      some (tnStub 1 1 1 1 (-1) * tnStub 1 1 1 1 (-1)) :=
  C5_mixture_limits tnStub dsTilt 1 2 0 (by decide) (by decide)

/-- C6 (confirmed): on the dataset `cos_tilt_1 = cos_tilt_2 = [1]` with
`xi_spin = 1/2` and `sigma_spin = 1/2`, the iid tilt mixture returns the
single value `(1/2)*(1/4) + (1/2) * N(1; 1, 1/2, [-1,1])^2`, the second
term being the truncated-normal peak value squared; this holds for every
truncated-normal primitive. -/
theorem C6_concrete_tilt_scenario (truncnorm : TruncNorm) :
    iid_spin_orientation_gaussian_isotropic truncnorm dsTilt (1/2) (1/2) =
      [(1/2) * (1/4) + (1/2) * (truncnorm 1 1 (1/2) 1 (-1)) ^ 2] := by
  simp [iid_spin_orientation_gaussian_isotropic,
    independent_spin_orientation_gaussian_isotropic, dsTilt]
  ring

/-- C7 (confirmed): the iid magnitude density is the specialization of
`independent_spin_magnitude_beta` to identical shape parameters and
identical maximum on both components, and each result is the elementwise
product of the two rescaled beta densities. -/
theorem C7_iid_magnitude_specialization (beta_dist : BetaDist) (dataset : Dataset)
    (amax alpha_chi beta_chi : ℚ) (i : ℕ)
    (h1 : i < dataset.a_1.length) (h2 : i < dataset.a_2.length) :
    iid_spin_magnitude_beta beta_dist dataset amax alpha_chi beta_chi =
      independent_spin_magnitude_beta beta_dist dataset
        alpha_chi alpha_chi beta_chi beta_chi amax amax ∧
    (iid_spin_magnitude_beta beta_dist dataset amax alpha_chi beta_chi)[i]? =
      some (beta_dist dataset.a_1[i] alpha_chi beta_chi amax *
        beta_dist dataset.a_2[i] alpha_chi beta_chi amax) := by
  refine ⟨rfl, ?_⟩
  simp [iid_spin_magnitude_beta, independent_spin_magnitude_beta,
    List.getElem?_zipWith', List.getElem?_eq_getElem h1,
    List.getElem?_eq_getElem h2]

/-- Witness for `C7_iid_magnitude_specialization` at the spec scenario
`a_1 = [1/2]`, `a_2 = [3/10]`, `amax = 1`, `alpha = beta = 2`. -/
theorem C7_iid_magnitude_specialization_witness :
    iid_spin_magnitude_beta bdStub dsMag 1 2 2 =
      independent_spin_magnitude_beta bdStub dsMag 2 2 2 2 1 1 ∧
    (iid_spin_magnitude_beta bdStub dsMag 1 2 2)[0]? =
      some (bdStub (1/2) 2 2 1 * bdStub (3/10) 2 2 1) :=
  C7_iid_magnitude_specialization bdStub dsMag 1 2 2 0 (by decide) (by decide)

/-- A product of marginal densities vanishes when either coordinate
leaves its truncation window, provided each marginal vanishes outside
its own window. -/
theorem marginal_product_eq_zero (f g : ℚ → ℚ)
    (hf : ∀ x, (x < -1 ∨ 1 < x) → f x = 0)
    (hg : ∀ x, (x < 0 ∨ 1 < x) → g x = 0)
    (ce cp : ℚ) (hout : 1 < |ce| ∨ cp < 0 ∨ 1 < cp) :
    f ce * g cp = 0 := by
  rcases hout with h | h | h
  · have h0 : f ce = 0 := by
      refine hf ce ?_
      rcases lt_abs.mp h with h | h
      · exact Or.inr h
      · exact Or.inl (by linarith)
    rw [h0, zero_mul]
  · rw [hg cp (Or.inl h), mul_zero]
  · rw [hg cp (Or.inr h), mul_zero]

/-- The masked kernel value of the `rho ≠ 0` branch vanishes for any
out-of-support sample. -/
theorem masked_product_eq_zero (a ce cp : ℚ)
    (hout : 1 < |ce| ∨ cp < 0 ∨ 1 < cp) :
    a * (if |ce| ≤ 1 then (1 : ℚ) else 0) *
      ((if cp ≤ 1 then (1 : ℚ) else 0) * (if 0 ≤ cp then (1 : ℚ) else 0)) = 0 := by
  rcases hout with h | h | h
  · rw [if_neg (not_le.mpr h), mul_zero, zero_mul]
  · rw [if_neg (not_le.mpr h), mul_zero, mul_zero]
  · rw [if_neg (not_le.mpr h), zero_mul, mul_zero]

/-- C2 (confirmed): for every hyperparameter combination, including
`rho = 0`, a sample whose `chi_eff` lies outside `[-1,1]` or whose
`chi_p` lies outside `[0,1]` receives density exactly 0 from both
bivariate models.  The hypotheses `htn` and `htsn` are the interface
property of the external truncated (skew-)normal primitives: a density
restricted to a finite interval vanishes outside it. -/
theorem C2_out_of_support_zero (truncnorm : TruncNorm)
    (truncskewnorm : TruncSkewNorm) (g2 : Gauss2d) (g2s : SkewGauss2d)
    (dataset : Dataset)
    (htn : ∀ x mu sigma high low, (x < low ∨ high < x) →
      truncnorm x mu sigma high low = 0)
    (htsn : ∀ x mu sigma alpha high low, (x < low ∨ high < x) →
      truncskewnorm x mu sigma alpha high low = 0)
    (mu_chi_eff sigma_chi_eff mu_chi_p sigma_chi_p skew_chi_eff skew_chi_p rho : ℚ)
    (i : ℕ) (h1 : i < dataset.chi_eff.length) (h2 : i < dataset.chi_p.length)
    (hout : 1 < |dataset.chi_eff[i]| ∨ dataset.chi_p[i] < 0 ∨ 1 < dataset.chi_p[i]) :
    (gaussian_chi_p_chi_eff truncnorm g2 dataset
        mu_chi_eff sigma_chi_eff mu_chi_p sigma_chi_p rho)[i]? = some 0 ∧
    (gaussian_chi_p_chi_eff_skew truncskewnorm g2s dataset
        mu_chi_eff sigma_chi_eff mu_chi_p sigma_chi_p
        skew_chi_eff skew_chi_p rho)[i]? = some 0 := by
  constructor
  · by_cases hrho : rho = 0
    · subst hrho
      rw [gaussian_chi_p_chi_eff_getElem_of_rho_zero truncnorm g2 dataset
        mu_chi_eff sigma_chi_eff mu_chi_p sigma_chi_p i h1 h2]
      exact congrArg some (marginal_product_eq_zero _ _
        (fun x hx => htn x mu_chi_eff sigma_chi_eff 1 (-1) hx)
        (fun x hx => htn x mu_chi_p sigma_chi_p 1 0 hx) _ _ hout)
    · rw [gaussian_chi_p_chi_eff_getElem_of_rho_ne truncnorm g2 dataset
        mu_chi_eff sigma_chi_eff mu_chi_p sigma_chi_p rho hrho i h1 h2]
      exact congrArg some (masked_product_eq_zero _ _ _ hout)
  · by_cases hrho : rho = 0
    · subst hrho
      rw [gaussian_chi_p_chi_eff_skew_getElem_of_rho_zero truncskewnorm g2s dataset
        mu_chi_eff sigma_chi_eff mu_chi_p sigma_chi_p skew_chi_eff skew_chi_p i h1 h2]
      exact congrArg some (marginal_product_eq_zero _ _
        (fun x hx => htsn x mu_chi_eff sigma_chi_eff skew_chi_eff 1 (-1) hx)
        (fun x hx => htsn x mu_chi_p sigma_chi_p skew_chi_p 1 0 hx) _ _ hout)
    · rw [gaussian_chi_p_chi_eff_skew_getElem_of_rho_ne truncskewnorm g2s dataset
        mu_chi_eff sigma_chi_eff mu_chi_p sigma_chi_p skew_chi_eff skew_chi_p rho
        hrho i h1 h2]
      exact congrArg some (masked_product_eq_zero _ _ _ hout)

/-- The interface property of the stand-in primitives: they vanish
outside the truncation window. -/
theorem tnStub_outside_zero (x mu sigma high low : ℚ) (h : x < low ∨ high < x) :
    tnStub x mu sigma high low = 0 := by
  rw [tnStub, if_neg]
  rintro ⟨hl, hh⟩
  rcases h with h | h <;> linarith

/-- The skew stand-in vanishes outside the truncation window. -/
theorem tsnStub_outside_zero (x mu sigma alpha high low : ℚ)
    (h : x < low ∨ high < x) : tsnStub x mu sigma alpha high low = 0 := by
  rw [tsnStub, if_neg]
  rintro ⟨hl, hh⟩
  rcases h with h | h <;> linarith

/-- Witness for `C2_out_of_support_zero` at `chi_eff = 2` (outside the
support), `rho = 3/7`. -/
theorem C2_out_of_support_zero_witness :
    (gaussian_chi_p_chi_eff tnStub g2Stub dsChiOut 0 1 (1/2) 1 (3/7))[0]? = some 0 ∧
    (gaussian_chi_p_chi_eff_skew tsnStub g2sStub dsChiOut 0 1 (1/2) 1 2 3 (3/7))[0]? =
      some 0 :=
  C2_out_of_support_zero tnStub tsnStub g2Stub g2sStub dsChiOut
    tnStub_outside_zero tsnStub_outside_zero 0 1 (1/2) 1 2 3 (3/7)
    0 (by decide) (by decide) (by norm_num [dsChiOut])

/-- C4 (confirmed): for `rho ≠ 0`, both bivariate models compute their
normalizing constant exactly as the spec describes — a 500-point grid
over `chi_eff` in `[-1,1]`, a 250-point grid over `chi_p` in `[0,1]`,
their outer-product mesh, the unnormalized kernel on every mesh point,
nested trapezoidal quadrature over `chi_eff` first and `chi_p` second —
and every in-support sample receives the unnormalized kernel value
divided by that scalar. -/
theorem C4_quadrature_normalization (truncnorm : TruncNorm)
    (truncskewnorm : TruncSkewNorm) (g2 : Gauss2d) (g2s : SkewGauss2d)
    (dataset : Dataset)
    (mu_chi_eff sigma_chi_eff mu_chi_p sigma_chi_p skew_chi_eff skew_chi_p rho : ℚ)
    (hrho : rho ≠ 0)
    (i : ℕ) (h1 : i < dataset.chi_eff.length) (h2 : i < dataset.chi_p.length)
    (hce : |dataset.chi_eff[i]| ≤ 1)
    (hcp0 : 0 ≤ dataset.chi_p[i]) (hcp1 : dataset.chi_p[i] ≤ 1) :
    (gaussian_chi_p_chi_eff truncnorm g2 dataset
        mu_chi_eff sigma_chi_eff mu_chi_p sigma_chi_p rho)[i]? =
      some (g2 dataset.chi_eff[i] dataset.chi_p[i]
          mu_chi_eff mu_chi_p sigma_chi_eff sigma_chi_p rho /
        normalization_chi_p_chi_eff g2
          mu_chi_eff sigma_chi_eff mu_chi_p sigma_chi_p rho) ∧
    normalization_chi_p_chi_eff g2 mu_chi_eff sigma_chi_eff mu_chi_p sigma_chi_p rho =
      spec_norm_constant
        (fun ce cp => g2 ce cp mu_chi_eff mu_chi_p sigma_chi_eff sigma_chi_p rho) ∧
    (gaussian_chi_p_chi_eff_skew truncskewnorm g2s dataset
        mu_chi_eff sigma_chi_eff mu_chi_p sigma_chi_p
        skew_chi_eff skew_chi_p rho)[i]? =
      some (g2s dataset.chi_eff[i] dataset.chi_p[i]
          mu_chi_eff mu_chi_p sigma_chi_eff sigma_chi_p skew_chi_eff skew_chi_p rho /
        normalization_chi_p_chi_eff_skew g2s
          mu_chi_eff sigma_chi_eff mu_chi_p sigma_chi_p skew_chi_eff skew_chi_p rho) ∧
    normalization_chi_p_chi_eff_skew g2s
        mu_chi_eff sigma_chi_eff mu_chi_p sigma_chi_p skew_chi_eff skew_chi_p rho =
      spec_norm_constant (fun ce cp => g2s ce cp mu_chi_eff mu_chi_p
        sigma_chi_eff sigma_chi_p skew_chi_eff skew_chi_p rho) := by
  refine ⟨?_, ?_, ?_, ?_⟩
  · rw [gaussian_chi_p_chi_eff_getElem_of_rho_ne truncnorm g2 dataset
      mu_chi_eff sigma_chi_eff mu_chi_p sigma_chi_p rho hrho i h1 h2,
      if_pos hce, if_pos hcp1, if_pos hcp0, mul_one, one_mul, mul_one]
  · simp only [normalization_chi_p_chi_eff, spec_norm_constant, List.map_map]
    refine congrArg (fun v => trapz v (linspace 0 1 250)) ?_
    refine List.map_congr_left (fun cp _ => ?_)
    simp [Function.comp_def]
  · rw [gaussian_chi_p_chi_eff_skew_getElem_of_rho_ne truncskewnorm g2s dataset
      mu_chi_eff sigma_chi_eff mu_chi_p sigma_chi_p skew_chi_eff skew_chi_p rho
      hrho i h1 h2,
      if_pos hce, if_pos hcp1, if_pos hcp0, mul_one, one_mul, mul_one]
  · simp only [normalization_chi_p_chi_eff_skew, spec_norm_constant, List.map_map]
    refine congrArg (fun v => trapz v (linspace 0 1 250)) ?_
    refine List.map_congr_left (fun cp _ => ?_)
    simp [Function.comp_def]

/-- Witness for `C4_quadrature_normalization` at an in-support sample
and `rho = 1/2`. -/
theorem C4_quadrature_normalization_witness :
    (gaussian_chi_p_chi_eff tnStub g2Stub dsChi 0 (1/5) (1/5) (1/5) (1/2))[0]? =
      some (g2Stub (1/2) (1/2) 0 (1/5) (1/5) (1/5) (1/2) /
        normalization_chi_p_chi_eff g2Stub 0 (1/5) (1/5) (1/5) (1/2)) ∧
    normalization_chi_p_chi_eff g2Stub 0 (1/5) (1/5) (1/5) (1/2) =
      spec_norm_constant (fun ce cp => g2Stub ce cp 0 (1/5) (1/5) (1/5) (1/2)) ∧
    (gaussian_chi_p_chi_eff_skew tsnStub g2sStub dsChi
        0 (1/5) (1/5) (1/5) 2 3 (1/2))[0]? =
      some (g2sStub (1/2) (1/2) 0 (1/5) (1/5) (1/5) 2 3 (1/2) /
        normalization_chi_p_chi_eff_skew g2sStub 0 (1/5) (1/5) (1/5) 2 3 (1/2)) ∧
    normalization_chi_p_chi_eff_skew g2sStub 0 (1/5) (1/5) (1/5) 2 3 (1/2) =
      spec_norm_constant (fun ce cp => g2sStub ce cp 0 (1/5) (1/5) (1/5) 2 3 (1/2)) :=
  C4_quadrature_normalization tnStub tsnStub g2Stub g2sStub dsChi
    0 (1/5) (1/5) (1/5) 2 3 (1/2) (by norm_num) 0 (by decide) (by decide)
    (by norm_num [dsChi, abs_le]) (by norm_num [dsChi]) (by norm_num [dsChi])

/-- C10 (confirmed): in the `rho ≠ 0` path the support masks are
boundary-inclusive — a sample with `chi_eff` exactly `-1` or `1`, or
`chi_p` exactly `0` or `1` (its other coordinate in support), is not
zeroed out and receives the normalized kernel value, because the mask
comparisons are non-strict. -/
theorem C10_boundary_inclusive (truncnorm : TruncNorm)
    (truncskewnorm : TruncSkewNorm) (g2 : Gauss2d) (g2s : SkewGauss2d)
    (dataset : Dataset)
    (mu_chi_eff sigma_chi_eff mu_chi_p sigma_chi_p skew_chi_eff skew_chi_p rho : ℚ)
    (hrho : rho ≠ 0)
    (i : ℕ) (h1 : i < dataset.chi_eff.length) (h2 : i < dataset.chi_p.length)
    (hce : |dataset.chi_eff[i]| ≤ 1)
    (hcp0 : 0 ≤ dataset.chi_p[i]) (hcp1 : dataset.chi_p[i] ≤ 1)
    (_hboundary : |dataset.chi_eff[i]| = 1 ∨ dataset.chi_p[i] = 0 ∨
      dataset.chi_p[i] = 1) :
    (gaussian_chi_p_chi_eff truncnorm g2 dataset
        mu_chi_eff sigma_chi_eff mu_chi_p sigma_chi_p rho)[i]? =
      some (g2 dataset.chi_eff[i] dataset.chi_p[i]
          mu_chi_eff mu_chi_p sigma_chi_eff sigma_chi_p rho /
        normalization_chi_p_chi_eff g2
          mu_chi_eff sigma_chi_eff mu_chi_p sigma_chi_p rho) ∧
    (gaussian_chi_p_chi_eff_skew truncskewnorm g2s dataset
        mu_chi_eff sigma_chi_eff mu_chi_p sigma_chi_p
        skew_chi_eff skew_chi_p rho)[i]? =
      some (g2s dataset.chi_eff[i] dataset.chi_p[i]
          mu_chi_eff mu_chi_p sigma_chi_eff sigma_chi_p skew_chi_eff skew_chi_p rho /
        normalization_chi_p_chi_eff_skew g2s
          mu_chi_eff sigma_chi_eff mu_chi_p sigma_chi_p skew_chi_eff skew_chi_p rho) := by
  constructor
  · rw [gaussian_chi_p_chi_eff_getElem_of_rho_ne truncnorm g2 dataset
      mu_chi_eff sigma_chi_eff mu_chi_p sigma_chi_p rho hrho i h1 h2,
      if_pos hce, if_pos hcp1, if_pos hcp0, mul_one, one_mul, mul_one]
  · rw [gaussian_chi_p_chi_eff_skew_getElem_of_rho_ne truncskewnorm g2s dataset
      mu_chi_eff sigma_chi_eff mu_chi_p sigma_chi_p skew_chi_eff skew_chi_p rho
      hrho i h1 h2,
      if_pos hce, if_pos hcp1, if_pos hcp0, mul_one, one_mul, mul_one]

/-- Witness for `C10_boundary_inclusive` at the boundary sample
`chi_eff = 1`, `chi_p = 0` with `rho = 1/3`. -/
theorem C10_boundary_inclusive_witness :
    (gaussian_chi_p_chi_eff tnStub g2Stub dsChiBoundary 0 (1/5) (1/5) (1/5) (1/3))[0]? =
      some (g2Stub 1 0 0 (1/5) (1/5) (1/5) (1/3) /
        normalization_chi_p_chi_eff g2Stub 0 (1/5) (1/5) (1/5) (1/3)) ∧
    (gaussian_chi_p_chi_eff_skew tsnStub g2sStub dsChiBoundary
        0 (1/5) (1/5) (1/5) 2 3 (1/3))[0]? =
      some (g2sStub 1 0 0 (1/5) (1/5) (1/5) 2 3 (1/3) /
        normalization_chi_p_chi_eff_skew g2sStub 0 (1/5) (1/5) (1/5) 2 3 (1/3)) :=
  C10_boundary_inclusive tnStub tsnStub g2Stub g2sStub dsChiBoundary
    0 (1/5) (1/5) (1/5) 2 3 (1/3) (by norm_num) 0 (by decide) (by decide)
    (by norm_num [dsChiBoundary, abs_le]) (by norm_num [dsChiBoundary])
    (by norm_num [dsChiBoundary]) (Or.inl (by norm_num [dsChiBoundary, abs_one]))

/-- A heap of array buffers, for the frame/aliasing model: cell ids map
to array contents. -/
def Heap := ℕ → Arr

/-- Write the array `v` into cell `r`. -/
def hupdate (h : Heap) (r : ℕ) (v : Arr) : Heap :=
  fun j => if j = r then v else h j

/-- The cells holding the caller-owned dataset arrays. -/
structure DSRefs where
  a_1 : ℕ
  a_2 : ℕ
  cos_tilt_1 : ℕ
  cos_tilt_2 : ℕ
  chi_eff : ℕ
  chi_p : ℕ

/-- Read the dataset arrays out of the heap. -/
def readDataset (h : Heap) (refs : DSRefs) : Dataset :=
  ⟨h refs.a_1, h refs.a_2, h refs.cos_tilt_1, h refs.cos_tilt_2,
    h refs.chi_eff, h refs.chi_p⟩

/-- Heap-level translation of `gaussian_chi_p_chi_eff` (source lines
247-277), keeping the in-place update structure of the Python body: the
local `prob` buffer lives at the fresh cell `p`, and every statement
`prob = ...`, `prob /= ...`, `prob *= ...` writes to that cell only,
reading the dataset cells through `refs`.  Returns the result cell and
the final heap. -/
def gaussian_chi_p_chi_eff_impl (truncnorm : TruncNorm) (g2 : Gauss2d)
    (h0 : Heap) (refs : DSRefs) (p : ℕ)
    (mu_chi_eff sigma_chi_eff mu_chi_p sigma_chi_p rho : ℚ) : ℕ × Heap :=
  if rho = 0 then
    let h1 := hupdate h0 p
      ((h0 refs.chi_eff).map (fun x => truncnorm x mu_chi_eff sigma_chi_eff 1 (-1)))
    let h2 := hupdate h1 p
      (List.zipWith (· * ·) (h1 p)
        ((h1 refs.chi_p).map (fun x => truncnorm x mu_chi_p sigma_chi_p 1 0)))
    (p, h2)
  else
    let h1 := hupdate h0 p
      (List.zipWith
        (fun ce cp => g2 ce cp mu_chi_eff mu_chi_p sigma_chi_eff sigma_chi_p rho)
        (h0 refs.chi_eff) (h0 refs.chi_p))
    let nc := normalization_chi_p_chi_eff g2
      mu_chi_eff sigma_chi_eff mu_chi_p sigma_chi_p rho
    let h2 := hupdate h1 p ((h1 p).map (fun v => v / nc))
    let h3 := hupdate h2 p
      (List.zipWith (· * ·) (h2 p)
        ((h2 refs.chi_eff).map (fun ce => if |ce| ≤ 1 then (1 : ℚ) else 0)))
    let h4 := hupdate h3 p
      (List.zipWith (· * ·) (h3 p)
        (List.zipWith (· * ·)
          ((h3 refs.chi_p).map (fun cp => if cp ≤ 1 then (1 : ℚ) else 0))
          ((h3 refs.chi_p).map (fun cp => if 0 ≤ cp then (1 : ℚ) else 0))))
    (p, h4)

/-- Heap-level translation of `iid_spin` (source lines 10-33): the body
is a single pure expression over the dataset arrays, allocated into the
fresh cell `p`. -/
def iid_spin_impl (truncnorm : TruncNorm) (beta_dist : BetaDist)
    (h0 : Heap) (refs : DSRefs) (p : ℕ)
    (xi_spin sigma_spin amax alpha_chi beta_chi : ℚ) : ℕ × Heap :=
  let prior := List.zipWith (· * ·)
    (List.zipWith
      (fun z1 z2 =>
        (1 - xi_spin) / 4 +
          xi_spin * truncnorm z1 1 sigma_spin 1 (-1) *
            truncnorm z2 1 sigma_spin 1 (-1))
      (h0 refs.cos_tilt_1) (h0 refs.cos_tilt_2))
    (List.zipWith (· * ·)
      ((h0 refs.a_1).map (fun x => beta_dist x alpha_chi beta_chi amax))
      ((h0 refs.a_2).map (fun x => beta_dist x alpha_chi beta_chi amax)))
  (p, hupdate h0 p prior)

/-- C9 (confirmed): the density models do not mutate the caller's
dataset and are pure.  In the heap model, running
`gaussian_chi_p_chi_eff` (whose Python body uses the in-place operators
`*=` and `/=`) or `iid_spin` with the local buffer at a fresh cell
leaves every dataset cell unchanged, and the result array equals the
pure function of the dataset values and the hyperparameters — so two
calls with identical inputs give identical outputs, independent of call
order. -/
theorem C9_no_mutation_pure (truncnorm : TruncNorm) (beta_dist : BetaDist)
    (g2 : Gauss2d) (h0 : Heap) (refs : DSRefs) (p q : ℕ)
    (mu_chi_eff sigma_chi_eff mu_chi_p sigma_chi_p rho
      xi_spin sigma_spin amax alpha_chi beta_chi : ℚ)
    (hp1 : p ≠ refs.a_1) (hp2 : p ≠ refs.a_2) (hp3 : p ≠ refs.cos_tilt_1)
    (hp4 : p ≠ refs.cos_tilt_2) (hp5 : p ≠ refs.chi_eff) (hp6 : p ≠ refs.chi_p)
    (hq1 : q ≠ refs.a_1) (hq2 : q ≠ refs.a_2) (hq3 : q ≠ refs.cos_tilt_1)
    (hq4 : q ≠ refs.cos_tilt_2) (hq5 : q ≠ refs.chi_eff) (hq6 : q ≠ refs.chi_p) :
    readDataset (gaussian_chi_p_chi_eff_impl truncnorm g2 h0 refs p
        mu_chi_eff sigma_chi_eff mu_chi_p sigma_chi_p rho).2 refs =
      readDataset h0 refs ∧
    (gaussian_chi_p_chi_eff_impl truncnorm g2 h0 refs p
        mu_chi_eff sigma_chi_eff mu_chi_p sigma_chi_p rho).2
      (gaussian_chi_p_chi_eff_impl truncnorm g2 h0 refs p
        mu_chi_eff sigma_chi_eff mu_chi_p sigma_chi_p rho).1 =
      gaussian_chi_p_chi_eff truncnorm g2 (readDataset h0 refs)
        mu_chi_eff sigma_chi_eff mu_chi_p sigma_chi_p rho ∧
    readDataset (iid_spin_impl truncnorm beta_dist h0 refs q
        xi_spin sigma_spin amax alpha_chi beta_chi).2 refs =
      readDataset h0 refs ∧
    (iid_spin_impl truncnorm beta_dist h0 refs q
        xi_spin sigma_spin amax alpha_chi beta_chi).2
      (iid_spin_impl truncnorm beta_dist h0 refs q
        xi_spin sigma_spin amax alpha_chi beta_chi).1 =
      iid_spin truncnorm beta_dist (readDataset h0 refs)
        xi_spin sigma_spin amax alpha_chi beta_chi := by
  refine ⟨?_, ?_, ?_, ?_⟩
  · by_cases hrho : rho = 0 <;>
      simp [gaussian_chi_p_chi_eff_impl, hrho, hupdate, readDataset,
        Ne.symm hp1, Ne.symm hp2, Ne.symm hp3, Ne.symm hp4,
        Ne.symm hp5, Ne.symm hp6]
  · by_cases hrho : rho = 0 <;>
      simp [gaussian_chi_p_chi_eff_impl, gaussian_chi_p_chi_eff,
        gaussian_chi_eff, gaussian_chi_p, hrho, hupdate, readDataset,
        Ne.symm hp5, Ne.symm hp6]
  · simp [iid_spin_impl, hupdate, readDataset,
      Ne.symm hq1, Ne.symm hq2, Ne.symm hq3, Ne.symm hq4,
      Ne.symm hq5, Ne.symm hq6]
  · simp [iid_spin_impl, iid_spin, iid_spin_orientation_gaussian_isotropic,
      independent_spin_orientation_gaussian_isotropic,
      iid_spin_magnitude_beta, independent_spin_magnitude_beta,
      hupdate, readDataset]

/-- A concrete heap for the C9 witness: six dataset cells and empty
cells elsewhere. -/
def heap0 : Heap := fun r =>
  if r = 0 then [1/2] else if r = 1 then [1/3] else if r = 2 then [1/4] else
  if r = 3 then [1/5] else if r = 4 then [1/6] else if r = 5 then [1/7] else []

/-- Concrete dataset cell ids for the C9 witness. -/
def refs0 : DSRefs := ⟨0, 1, 2, 3, 4, 5⟩

/-- Witness for `C9_no_mutation_pure` with the fresh cell 6. -/
theorem C9_no_mutation_pure_witness :
    readDataset (gaussian_chi_p_chi_eff_impl tnStub g2Stub heap0 refs0 6
        0 1 0 1 (1/2)).2 refs0 = readDataset heap0 refs0 ∧
    (gaussian_chi_p_chi_eff_impl tnStub g2Stub heap0 refs0 6 0 1 0 1 (1/2)).2
      (gaussian_chi_p_chi_eff_impl tnStub g2Stub heap0 refs0 6 0 1 0 1 (1/2)).1 =
      gaussian_chi_p_chi_eff tnStub g2Stub (readDataset heap0 refs0) 0 1 0 1 (1/2) ∧
    readDataset (iid_spin_impl tnStub bdStub heap0 refs0 6
        (1/2) (1/2) 1 2 2).2 refs0 = readDataset heap0 refs0 ∧
    (iid_spin_impl tnStub bdStub heap0 refs0 6 (1/2) (1/2) 1 2 2).2
      (iid_spin_impl tnStub bdStub heap0 refs0 6 (1/2) (1/2) 1 2 2).1 =
      iid_spin tnStub bdStub (readDataset heap0 refs0) (1/2) (1/2) 1 2 2 :=
  C9_no_mutation_pure tnStub bdStub g2Stub heap0 refs0 6 6
    0 1 0 1 (1/2) (1/2) (1/2) 1 2 2
    (by decide) (by decide) (by decide) (by decide) (by decide) (by decide)
    (by decide) (by decide) (by decide) (by decide) (by decide) (by decide)

end GWPop
